import Mathlib

/-!
Verification of the video-dub backend against its specification.

The definitions below are a shallow embedding of the Python sources:
  * `src/backend/tts.py` — timing reconciler (`_combine_utterances_with_timing`),
    utterance-source fallback policy and the per-utterance synthesis loop of
    `create_synchronized_dubbed_audio`;
  * `src/backend/main.py` — orchestrator `process_dubbing` and the status
    polling endpoint `get_dubbing_status`;
  * `src/backend/video_processing.py` — media muxer
    (`combine_video_with_dubbed_audio`) and the session registry
    (`DubbingPipeline`).

Seconds are modelled as rationals.  External effects (ffmpeg runs, network
calls, file probes) are modelled as explicit outcome parameters; the pure
control flow around them is translated statement by statement.
-/

namespace VideoDub

/-! ## Timing reconciler — `tts.py`, `_combine_utterances_with_timing` -/

/-- The 0.1 s gap threshold of `tts.py` line 556 (`start_time - current_time > 0.1`). -/
def gapThreshold : ℚ := 1/10

/-- One entry of `utterance_audio_files` (tts.py lines 505-510): a synthesized
clip file together with the original utterance's timestamps.  The source dict
also stores `duration = end - start`, which `_combine_utterances_with_timing`
never reads; it is omitted.  The Python key `end` is a Lean keyword and is
rendered `stop`. -/
structure UttFile where
  file : String
  start : ℚ
  stop : ℚ
deriving DecidableEq, Repr

/-- An entry of the reconciler's track plan (`audio_segments` in tts.py
lines 547-589): either a generated silence file of the given duration or one
of the synthesized utterance clip files. -/
inductive PlanEntry where
  | Silence (duration : ℚ)
  | Clip (file : String)
deriving DecidableEq, Repr

/-- The plan-construction loop of tts.py lines 548-576, translated literally:
`current_time` starts at 0; before each utterance a silence entry of duration
`max(0.1, start - current_time)` is emitted when
`start > current_time and start - current_time > 0.1`; then the clip entry is
emitted and `current_time` is set to the utterance's original `end`. -/
def buildPlan : List UttFile → ℚ → List PlanEntry
  | [], _ => []
  | u :: rest, cursor =>
    (if u.start > cursor ∧ u.start - cursor > gapThreshold
      then [PlanEntry.Silence (max gapThreshold (u.start - cursor))]
      else [])
      ++ PlanEntry.Clip u.file :: buildPlan rest u.stop

/-- The plan constructor as worded by the specification (§4.3 step 3a): a
silence entry is emitted exactly when `start - cursor > gap_threshold`, with
duration the gap floored at the threshold.  Declared only to be compared with
`buildPlan`, which is translated from the code. -/
def buildPlanFromSpec : List UttFile → ℚ → List PlanEntry
  | [], _ => []
  | u :: rest, cursor =>
    (if u.start - cursor > gapThreshold
      then [PlanEntry.Silence (max gapThreshold (u.start - cursor))]
      else [])
      ++ PlanEntry.Clip u.file :: buildPlanFromSpec rest u.stop

/-- Ordering by original start time, the sort key of
`utterance_files.sort(key=lambda x: x['start'])` (tts.py line 544). -/
def uttLE (a b : UttFile) : Prop := a.start ≤ b.start

instance : DecidableRel uttLE := fun a b => inferInstanceAs (Decidable (a.start ≤ b.start))

instance : IsTotal UttFile uttLE := ⟨fun a b => le_total a.start b.start⟩

instance : IsTrans UttFile uttLE := ⟨fun _ _ _ h1 h2 => le_trans h1 h2⟩

/-- Python's `list.sort(key=...)` is a stable sort; a stable sort by a total
preorder is unique, so it is modelled by stable insertion sort. -/
def sortUtterances (l : List UttFile) : List UttFile := List.insertionSort uttLE l

/-- The reconciler's track plan: sort by start time, then run the
plan-construction loop from cursor 0. -/
def trackPlan (l : List UttFile) : List PlanEntry := buildPlan (sortUtterances l) 0

/-- The track plan as worded by the specification; compared with `trackPlan`. -/
def trackPlanFromSpec (l : List UttFile) : List PlanEntry :=
  buildPlanFromSpec (sortUtterances l) 0

def isSilence : PlanEntry → Bool
  | .Silence _ => true
  | .Clip _ => false

def isClip : PlanEntry → Bool
  | .Silence _ => false
  | .Clip _ => true

/-- Decoded duration of one plan segment, given the decoded duration `dur f`
of each audio file: a silence file decodes to its requested duration. -/
def segmentDuration (dur : String → ℚ) : PlanEntry → ℚ
  | .Silence d => d
  | .Clip f => dur f

/-- Decoded duration of the concatenated track (tts.py lines 628-637 probe the
concatenation of `audio_segments`). -/
def actualDuration (dur : String → ℚ) (plan : List PlanEntry) : ℚ :=
  (plan.map (segmentDuration dur)).sum

/-- `expected_duration = utterance_files[-1]['end'] if utterance_files else 0`
(tts.py line 636); by that point `utterance_files` has been sorted in place. -/
def expectedDuration (l : List UttFile) : ℚ :=
  match (sortUtterances l).getLast? with
  | some u => u.stop
  | none => 0

/-- The duration-drift diagnostic condition of tts.py line 639:
`actual_duration > expected_duration * 1.5`. -/
def driftWarning (dur : String → ℚ) (l : List UttFile) : Prop :=
  expectedDuration l * (3/2) < actualDuration dur (trackPlan l)

instance (dur : String → ℚ) (l : List UttFile) : Decidable (driftWarning dur l) :=
  inferInstanceAs (Decidable (_ < _))

/-! ### Helper lemmas for the reconciler -/

theorem silence_mem_ge (l : List UttFile) :
    ∀ (cursor : ℚ) (d : ℚ), PlanEntry.Silence d ∈ buildPlan l cursor → gapThreshold ≤ d := by
  induction l with
  | nil => intro cursor d h; simp [buildPlan] at h
  | cons u rest ih =>
    intro cursor d h
    simp only [buildPlan] at h
    rcases List.mem_append.mp h with h1 | h2
    · by_cases hc : u.start > cursor ∧ u.start - cursor > gapThreshold
      · rw [if_pos hc] at h1
        have heq := List.mem_singleton.mp h1
        have hd : d = max gapThreshold (u.start - cursor) := by
          injection heq
        rw [hd]
        exact le_max_left _ _
      · rw [if_neg hc] at h1
        simp at h1
    · rcases List.mem_cons.mp h2 with h3 | h4
      · exact absurd h3 (by simp)
      · exact ih u.stop d h4

theorem buildPlan_eq_fromSpec (l : List UttFile) :
    ∀ cursor : ℚ, buildPlan l cursor = buildPlanFromSpec l cursor := by
  induction l with
  | nil => intro cursor; rfl
  | cons u rest ih =>
    intro cursor
    simp only [buildPlan, buildPlanFromSpec, ih]
    have hiff : (u.start > cursor ∧ u.start - cursor > gapThreshold) ↔
        (u.start - cursor > gapThreshold) := by
      constructor
      · exact And.right
      · intro h
        refine ⟨?_, h⟩
        have hpos : (0 : ℚ) < gapThreshold := by norm_num [gapThreshold]
        linarith
    rw [if_congr hiff rfl rfl]

theorem sorted_perm_eq_of_distinct_starts :
    ∀ {l₁ l₂ : List UttFile}, l₁.Perm l₂ → l₁.Sorted uttLE → l₂.Sorted uttLE →
      l₁.Pairwise (fun a b => a.start ≠ b.start) → l₁ = l₂ := by
  intro l₁
  induction l₁ with
  | nil =>
    intro l₂ hp _ _ _
    exact hp.nil_eq
  | cons a t ih =>
    intro l₂ hp hs₁ hs₂ hd
    cases l₂ with
    | nil => exact absurd hp.symm.nil_eq (by simp)
    | cons b t₂ =>
      have hab : a = b := by
        have hbmem : b ∈ a :: t := hp.symm.subset (List.mem_cons_self b t₂)
        rcases List.mem_cons.mp hbmem with h | hbt
        · exact h.symm
        · have h1 : a.start ≤ b.start := List.rel_of_sorted_cons hs₁ b hbt
          have hne : a.start ≠ b.start := (List.pairwise_cons.mp hd).1 b hbt
          have hamem : a ∈ b :: t₂ := hp.subset (List.mem_cons_self a t)
          rcases List.mem_cons.mp hamem with h' | hat
          · exact h'
          · have h2 : b.start ≤ a.start := List.rel_of_sorted_cons hs₂ a hat
            exact absurd (le_antisymm h1 h2) hne
      subst hab
      have ht : t = t₂ := ih hp.cons_inv hs₁.of_cons hs₂.of_cons hd.of_cons
      rw [ht]

/-! ## Claims about the reconciler -/

/-- C1: every Silence entry in the track plan has duration at least the 0.1 s
gap threshold, and the plan built by the code equals the plan described by the
specification's emission rule (a Silence entry is emitted before an utterance
exactly when its start exceeds the cursor — initially 0, afterwards the
previous utterance's original end — by more than the threshold, with duration
the gap floored at 0.1 s). -/
theorem silence_gap_soundness (files : List UttFile) :
    (∀ d : ℚ, PlanEntry.Silence d ∈ trackPlan files → gapThreshold ≤ d) ∧
    trackPlan files = trackPlanFromSpec files := by
  constructor
  · intro d h
    exact silence_mem_ge (sortUtterances files) 0 d h
  · exact buildPlan_eq_fromSpec (sortUtterances files) 0

/-- Witness for C1 at a concrete input: the input `[(5, 7, "u")]` produces a
silence entry of duration 5. -/
theorem silence_gap_soundness_witness :
    gapThreshold ≤ 5 ∧
      trackPlan [⟨"u", 5, 7⟩] = trackPlanFromSpec [⟨"u", 5, 7⟩] :=
  ⟨(silence_gap_soundness [⟨"u", 5, 7⟩]).1 5
      (by norm_num [trackPlan, sortUtterances, List.insertionSort, List.orderedInsert,
        buildPlan, gapThreshold]),
   (silence_gap_soundness [⟨"u", 5, 7⟩]).2⟩

/-- C2 counterexample: with two utterances sharing the same start time the
stable sort preserves input order, so permuting the input changes the track
plan.  The claim as stated (invariance for every permutation of every list)
is therefore false. -/
theorem plan_not_order_invariant_with_equal_starts :
    ([⟨"A", 0, 1⟩, ⟨"B", 0, 5⟩] : List UttFile).Perm [⟨"B", 0, 5⟩, ⟨"A", 0, 1⟩] ∧
    trackPlan [⟨"A", 0, 1⟩, ⟨"B", 0, 5⟩] ≠ trackPlan [⟨"B", 0, 5⟩, ⟨"A", 0, 1⟩] := by
  constructor
  · exact List.Perm.swap _ _ _
  · have hne : ("A" : String) ≠ "B" := by decide
    norm_num [hne, trackPlan, sortUtterances, List.insertionSort, List.orderedInsert, uttLE,
      buildPlan, gapThreshold]

/-- C2 amended: when the utterances' start times are pairwise distinct,
reconciliation is invariant to the input order — any permutation of the input
list yields an identical track plan, because the reconciler first sorts the
utterances by start time. -/
theorem plan_order_invariant_of_distinct_starts (l₁ l₂ : List UttFile)
    (hp : l₁.Perm l₂) (hd : l₁.Pairwise fun a b => a.start ≠ b.start) :
    trackPlan l₁ = trackPlan l₂ := by
  have hperm : (sortUtterances l₁).Perm (sortUtterances l₂) :=
    ((List.perm_insertionSort uttLE l₁).trans hp).trans
      (List.perm_insertionSort uttLE l₂).symm
  have hd₁ : (sortUtterances l₁).Pairwise (fun a b => a.start ≠ b.start) := by
    refine ((List.perm_insertionSort uttLE l₁).pairwise_iff ?_).mpr hd
    intro x y h hxy
    exact h hxy.symm
  have he : sortUtterances l₁ = sortUtterances l₂ :=
    sorted_perm_eq_of_distinct_starts hperm
      (List.sorted_insertionSort uttLE l₁) (List.sorted_insertionSort uttLE l₂) hd₁
  unfold trackPlan
  rw [he]

/-- Witness for the amended C2 at a concrete input with distinct start times. -/
theorem plan_order_invariant_witness :
    trackPlan [⟨"A", 0, 1⟩, ⟨"B", 2, 3⟩] = trackPlan [⟨"B", 2, 3⟩, ⟨"A", 0, 1⟩] :=
  plan_order_invariant_of_distinct_starts _ _ (List.Perm.swap _ _ _)
    (by norm_num)

/-- C5: the concrete two-utterance example.  Utterances `(0, 2)` and `(5, 7)`
with clips of decoded duration 1.8 s and 1.9 s yield the plan
`[Clip, Silence 3.0, Clip]`, expected total duration 7 s (the last utterance's
end), actual concatenated duration 6.7 s, and `6.7 ≤ 7 * 1.5` so the
duration-drift diagnostic is not raised. -/
theorem two_utterance_example_plan :
    trackPlan [⟨"utterance_0.mp3", 0, 2⟩, ⟨"utterance_1.mp3", 5, 7⟩] =
      [PlanEntry.Clip "utterance_0.mp3", PlanEntry.Silence 3,
       PlanEntry.Clip "utterance_1.mp3"] ∧
    expectedDuration [⟨"utterance_0.mp3", 0, 2⟩, ⟨"utterance_1.mp3", 5, 7⟩] = 7 ∧
    actualDuration
        (fun f => if f = "utterance_0.mp3" then 9/5 else if f = "utterance_1.mp3" then 19/10 else 0)
        (trackPlan [⟨"utterance_0.mp3", 0, 2⟩, ⟨"utterance_1.mp3", 5, 7⟩]) = 67/10 ∧
    ¬ driftWarning
        (fun f => if f = "utterance_0.mp3" then 9/5 else if f = "utterance_1.mp3" then 19/10 else 0)
        [⟨"utterance_0.mp3", 0, 2⟩, ⟨"utterance_1.mp3", 5, 7⟩] := by
  have hne : ("utterance_1.mp3" : String) ≠ "utterance_0.mp3" := by decide
  refine ⟨?_, ?_, ?_, ?_⟩ <;>
    norm_num [hne, trackPlan, trackPlanFromSpec, sortUtterances, List.insertionSort,
      List.orderedInsert, uttLE, buildPlan, gapThreshold, expectedDuration,
      actualDuration, segmentDuration, driftWarning]

/-- C7 counterexample: a single utterance starting at 5 s produces a plan with
a leading Silence entry (the reconciler pads from track start to the first
utterance), so "zero Silence entries regardless of the start time" is false. -/
theorem single_utterance_leading_silence :
    trackPlan [⟨"u", 5, 7⟩] = [PlanEntry.Silence 5, PlanEntry.Clip "u"] ∧
    (trackPlan [⟨"u", 5, 7⟩]).countP isSilence ≠ 0 := by
  have h : trackPlan [⟨"u", 5, 7⟩] = [PlanEntry.Silence 5, PlanEntry.Clip "u"] := by
    norm_num [trackPlan, sortUtterances, List.insertionSort, List.orderedInsert,
      buildPlan, gapThreshold]
  refine ⟨h, ?_⟩
  rw [h]
  simp [List.countP_cons, isSilence]

/-- C7 amended: a single-utterance input produces a plan with exactly one Clip
entry; it has zero Silence entries when the utterance's start time is at most
the 0.1 s gap threshold, and otherwise exactly one leading Silence entry of
duration equal to the start time. -/
theorem single_utterance_plan_shape (u : UttFile) :
    (trackPlan [u]).countP isClip = 1 ∧
    (u.start ≤ gapThreshold → (trackPlan [u]).countP isSilence = 0) ∧
    (gapThreshold < u.start →
      trackPlan [u] = [PlanEntry.Silence u.start, PlanEntry.Clip u.file]) := by
  have hs : sortUtterances [u] = [u] := rfl
  have hplan : trackPlan [u] =
      (if u.start > 0 ∧ u.start - 0 > gapThreshold
        then [PlanEntry.Silence (max gapThreshold (u.start - 0))] else [])
        ++ [PlanEntry.Clip u.file] := by
    simp [trackPlan, hs, buildPlan]
  by_cases h : gapThreshold < u.start
  · have hpos : (0 : ℚ) < u.start := by
      have hg : (0 : ℚ) < gapThreshold := by norm_num [gapThreshold]
      linarith
    have hcond : u.start > 0 ∧ u.start - 0 > gapThreshold := ⟨hpos, by simpa using h⟩
    rw [if_pos hcond] at hplan
    have hmax : max gapThreshold (u.start - 0) = u.start := by
      rw [sub_zero]
      exact max_eq_right (le_of_lt h)
    rw [hmax] at hplan
    refine ⟨?_, ?_, ?_⟩
    · rw [hplan]; rfl
    · intro hle; exact absurd h (not_lt.mpr hle)
    · intro _; simpa using hplan
  · have hcond : ¬ (u.start > 0 ∧ u.start - 0 > gapThreshold) := by
      intro hc
      exact h (by simpa using hc.2)
    rw [if_neg hcond] at hplan
    refine ⟨?_, ?_, ?_⟩
    · rw [hplan]; rfl
    · intro _; rw [hplan]; rfl
    · intro hlt; exact absurd hlt h

/-- Witness for the amended C7, applied at a start time below the threshold
and at a start time above it. -/
theorem single_utterance_plan_shape_witness :
    (trackPlan [⟨"v", 0, 2⟩]).countP isSilence = 0 ∧
    trackPlan [⟨"w", 5, 7⟩] = [PlanEntry.Silence 5, PlanEntry.Clip "w"] :=
  ⟨(single_utterance_plan_shape ⟨"v", 0, 2⟩).2.1 (by norm_num [gapThreshold]),
   (single_utterance_plan_shape ⟨"w", 5, 7⟩).2.2 (by norm_num [gapThreshold])⟩

/-! ## Utterance-source fallback policy — tts.py lines 415-463 -/

/-- A Deepgram utterance record: keys `start`, `end` (rendered `stop`) and
`transcript`. -/
structure Utterance where
  start : ℚ
  stop : ℚ
  transcript : String
deriving DecidableEq, Repr

/-- A paragraph record: keys `start`, `end` (rendered `stop`) and `text`. -/
structure Paragraph where
  start : ℚ
  stop : ℚ
  text : String
deriving DecidableEq, Repr

/-- The parts of `transcription_data` read by the fallback policy.  `words` is
the length of the `words` list (the code only takes `len(...)` of it). -/
structure TranscriptionData where
  utterances : List Utterance
  paragraphs : List Paragraph
  text : String
  words : ℕ
deriving DecidableEq, Repr

/-- tts.py lines 424-431: paragraphs that are records with non-empty (truthy)
`text` are mapped to utterances `(start, end, text)`. -/
def paraUtterances (ps : List Paragraph) : List Utterance :=
  (ps.filter fun p => p.text != "").map fun p => ⟨p.start, p.stop, p.text⟩

/-- A sentence-boundary character of the regex `[.!?]+` (tts.py line 437). -/
def sentenceBoundary (c : Char) : Bool := c == '.' || c == '!' || c == '?'

/-- ASCII whitespace, for Python's `str.strip()`. -/
def isPySpace (c : Char) : Bool := c == ' ' || c == '\t' || c == '\n' || c == '\r'

/-- `re.split(r'[.!?]+', text)` over the character list of `text`: split at
every boundary character.  (Splitting at single characters produces extra
empty fragments inside a boundary run, which the code's non-empty filter
below discards, so the filtered result agrees with the `+`-collapsed split.) -/
def splitAtBoundaries : List Char → List (List Char)
  | [] => [[]]
  | c :: rest =>
    match splitAtBoundaries rest, sentenceBoundary c with
    | s :: ss, true => [] :: s :: ss
    | s :: ss, false => (c :: s) :: ss
    | [], _ => []

/-- Python's `str.strip()` (ASCII whitespace) on a character list. -/
def stripChars (s : List Char) : List Char :=
  ((s.dropWhile isPySpace).reverse.dropWhile isPySpace).reverse

/-- Python's `str.strip()`. -/
def pyStrip (s : String) : String := String.mk (stripChars s.data)

/-- tts.py lines 437-438: split the transcript into sentences, strip each and
discard empty fragments. -/
def sentences (text : String) : List String :=
  ((splitAtBoundaries text.data).map (fun s => String.mk (stripChars s))).filter
    (fun s => s != "")

/-- tts.py line 443: `total_words * 0.5 if total_words else 30`. -/
def estimatedDuration (words : ℕ) : ℚ :=
  if words ≠ 0 then (words : ℚ) * (1/2) else 30

/-- tts.py lines 446-453: sentence `i` receives the time slice
`[i * per, (i+1) * per)`. -/
def slicedUtterances (per : ℚ) : List String → ℕ → List Utterance
  | [], _ => []
  | s :: rest, i =>
    ⟨(i : ℚ) * per, ((i : ℚ) + 1) * per, s⟩ :: slicedUtterances per rest (i + 1)

/-- tts.py lines 434-455: synthetic utterances from the sentence split, evenly
spaced across the estimated duration; empty when there are no sentences. -/
def syntheticUtterances (text : String) (words : ℕ) : List Utterance :=
  let ss := sentences text
  if ss.isEmpty then []
  else slicedUtterances (estimatedDuration words / (ss.length : ℚ)) ss 0

/-- The utterance-source selection of tts.py lines 415-463: use the
transcription's utterances; when empty, paragraphs with non-empty text; when
still empty, synthetic sentence utterances; `none` models the final
degradation to `create_dubbed_audio` (single-segment mode). -/
def selectUtterances (d : TranscriptionData) : Option (List Utterance) :=
  let us0 := d.utterances
  let us1 := if us0.isEmpty then paraUtterances d.paragraphs else us0
  let us2 := if us1.isEmpty then syntheticUtterances d.text d.words else us1
  if us2.isEmpty then none else some us2

/-! ## Claims about the fallback policy -/

/-- C3 counterexample: a transcription with no utterances, one paragraph whose
`text` is empty, and transcript "hi." — paragraph segments exist, yet the code
skips the empty-text paragraph and takes the sentence-splitting path, so the
claim's "if paragraph segments exist, each paragraph's (start, end, text)
becomes an utterance" is false as stated. -/
theorem fallback_skips_empty_text_paragraphs :
    (⟨[], [⟨0, 1, ""⟩], "hi.", 0⟩ : TranscriptionData).utterances = [] ∧
    (⟨[], [⟨0, 1, ""⟩], "hi.", 0⟩ : TranscriptionData).paragraphs ≠ [] ∧
    selectUtterances ⟨[], [⟨0, 1, ""⟩], "hi.", 0⟩ ≠
      some (([⟨0, 1, ""⟩] : List Paragraph).map fun p =>
        (⟨p.start, p.stop, p.text⟩ : Utterance)) ∧
    selectUtterances ⟨[], [⟨0, 1, ""⟩], "hi.", 0⟩ = some [⟨0, 30, "hi"⟩] := by
  have hsent : sentences "hi." = ["hi"] := by decide
  have hpar : paraUtterances [⟨0, 1, ""⟩] = [] := by decide
  have hsyn : syntheticUtterances "hi." 0 = [⟨0, 30, "hi"⟩] := by
    unfold syntheticUtterances
    rw [hsent]
    norm_num [estimatedDuration, slicedUtterances]
  have hsel : selectUtterances ⟨[], [⟨0, 1, ""⟩], "hi.", 0⟩ = some [⟨0, 30, "hi"⟩] := by
    simp only [selectUtterances]
    norm_num [hpar, hsyn]
  refine ⟨rfl, by simp, ?_, hsel⟩
  rw [hsel]
  simp

/-- C3 amended: when the transcription result has no utterances, the fallback
policies are tried in this fixed order until one yields a non-empty sequence:
first, paragraphs with non-empty text (empty-text paragraphs are discarded)
each become an utterance `(start, end, text)`; otherwise the transcript is
split into sentences at '.', '!' or '?' with empty fragments discarded and
each sentence receives an equal slice of an estimated duration of 0.5 s per
transcribed word (30 s when the word list is empty); if no utterances can be
produced at all, the pipeline degrades to single-segment mode. -/
theorem fallback_policy_precedence (d : TranscriptionData) (h : d.utterances = []) :
    (paraUtterances d.paragraphs ≠ [] →
        selectUtterances d = some (paraUtterances d.paragraphs)) ∧
    (paraUtterances d.paragraphs = [] → syntheticUtterances d.text d.words ≠ [] →
        selectUtterances d = some (syntheticUtterances d.text d.words)) ∧
    (paraUtterances d.paragraphs = [] → syntheticUtterances d.text d.words = [] →
        selectUtterances d = none) := by
  refine ⟨?_, ?_, ?_⟩
  · intro hp
    obtain ⟨x, xs, hxe⟩ : ∃ x xs, paraUtterances d.paragraphs = x :: xs := by
      cases hq : paraUtterances d.paragraphs with
      | nil => exact absurd hq hp
      | cons a l => exact ⟨a, l, rfl⟩
    simp [selectUtterances, h, hxe]
  · intro hp hs
    obtain ⟨x, xs, hxe⟩ : ∃ x xs, syntheticUtterances d.text d.words = x :: xs := by
      cases hq : syntheticUtterances d.text d.words with
      | nil => exact absurd hq hs
      | cons a l => exact ⟨a, l, rfl⟩
    simp [selectUtterances, h, hp, hxe]
  · intro hp hs
    simp [selectUtterances, h, hp, hs]

/-- Witness for the amended C3, applied at three concrete transcriptions: one
with a usable paragraph, one with only a transcript, and one with nothing. -/
theorem fallback_policy_precedence_witness :
    selectUtterances ⟨[], [⟨0, 2, "p"⟩], "", 0⟩ = some [⟨0, 2, "p"⟩] ∧
    selectUtterances ⟨[], [], "hi.", 0⟩ = some [⟨0, 30, "hi"⟩] ∧
    selectUtterances ⟨[], [], "", 0⟩ = none := by
  have hsent : sentences "hi." = ["hi"] := by decide
  have hsyn : syntheticUtterances "hi." 0 = [⟨0, 30, "hi"⟩] := by
    unfold syntheticUtterances
    rw [hsent]
    norm_num [estimatedDuration, slicedUtterances]
  refine ⟨?_, ?_, ?_⟩
  · have h : selectUtterances ⟨[], [⟨0, 2, "p"⟩], "", 0⟩ =
        some (paraUtterances [⟨0, 2, "p"⟩]) :=
      (fallback_policy_precedence ⟨[], [⟨0, 2, "p"⟩], "", 0⟩ rfl).1 (by decide)
    rwa [show paraUtterances [⟨0, 2, "p"⟩] = [⟨0, 2, "p"⟩] from by decide] at h
  · have hne : syntheticUtterances "hi." 0 ≠ [] := by rw [hsyn]; simp
    have h : selectUtterances ⟨[], [], "hi.", 0⟩ = some (syntheticUtterances "hi." 0) :=
      (fallback_policy_precedence ⟨[], [], "hi.", 0⟩ rfl).2.1 (by decide) hne
    rwa [hsyn] at h
  · exact (fallback_policy_precedence ⟨[], [], "", 0⟩ rfl).2.2 (by decide) (by decide)

/-! ## Per-utterance translation and synthesis loop — tts.py lines 468-510 -/

/-- tts.py lines 480-486: the text actually synthesized for an utterance — the
utterance-level translation result when the call succeeds, and the original
untranslated transcript when it raises. -/
def effectiveText (original : String) (tr : Except String String) : String :=
  match tr with
  | .ok t => t
  | .error _ => original

/-- The synthesis loop of tts.py lines 474-510.  Each list element pairs an
utterance with the outcome of its individual translation call; `synth` is the
outcome of `synthesize_speech` on a given text.  A non-empty (after strip)
effective text is synthesized and written to `utterance_i.mp3` (the pair's
second component is the written audio payload); an empty one is skipped.  A
synthesis exception propagates and fails the whole stage; a translation
exception never does. -/
def synthesizeLoop (synth : String → Except String String) :
    List (Utterance × Except String String) → ℕ → Except String (List (UttFile × String))
  | [], _ => .ok []
  | (u, tr) :: rest, i =>
    let translated := effectiveText u.transcript tr
    if pyStrip translated ≠ "" then
      match synth translated with
      | .error e => .error e
      | .ok audio =>
        match synthesizeLoop synth rest (i + 1) with
        | .error e => .error e
        | .ok fs =>
          .ok ((⟨"utterance_" ++ toString i ++ ".mp3", u.start, u.stop⟩, audio) :: fs)
    else synthesizeLoop synth rest (i + 1)

/-- The clip list the loop is expected to produce when every synthesis call
succeeds: one clip per utterance whose effective text is non-empty after
strip, carrying the synthesized audio of that effective text. -/
def expectedClips (synthOk : String → String) :
    List (Utterance × Except String String) → ℕ → List (UttFile × String)
  | [], _ => []
  | (u, tr) :: rest, i =>
    let translated := effectiveText u.transcript tr
    if pyStrip translated ≠ "" then
      (⟨"utterance_" ++ toString i ++ ".mp3", u.start, u.stop⟩, synthOk translated)
        :: expectedClips synthOk rest (i + 1)
    else expectedClips synthOk rest (i + 1)

/-- C10: in the synchronized dubbing path a failure of an individual
utterance's translation never fails the synthesis stage.  For every list of
utterances with arbitrary per-utterance translation outcomes, as long as the
synthesis calls themselves succeed the loop returns `ok` and processes every
utterance: failed translations fall back to the original transcript
(`effectiveText` of an `error` outcome is the original text) and the loop
continues with the remaining utterances. -/
theorem translation_failure_isolated (synthOk : String → String)
    (utts : List (Utterance × Except String String)) (i : ℕ) :
    synthesizeLoop (fun t => Except.ok (synthOk t)) utts i =
      Except.ok (expectedClips synthOk utts i) := by
  induction utts generalizing i with
  | nil => rfl
  | cons p rest ih =>
    obtain ⟨u, tr⟩ := p
    by_cases h : pyStrip (effectiveText u.transcript tr) ≠ ""
    · simp only [synthesizeLoop, expectedClips, if_pos h, ih]
    · simp only [synthesizeLoop, expectedClips, if_neg h, ih]

/-! ## Session state machine and orchestrator — main.py, video_processing.py -/

/-- The session statuses written by the pipeline (main.py, video_processing.py). -/
inductive Status where
  | created
  | transcribing
  | translating
  | generating_voice
  | combining_video
  | completed
  | failed
deriving DecidableEq, Repr

/-- The session dict of `DubbingPipeline.create_session` (video_processing.py
lines 164-173) plus the keys `error` and `dubbed_video_path` assigned later by
`process_dubbing`; absent keys are `none`. -/
structure Session where
  status : Status
  progress : ℕ
  original_video_path : Option String
  dubbed_video_path : Option String
  created_at : ℚ
  error : Option String
deriving DecidableEq, Repr

/-- `create_session` (video_processing.py lines 164-173): status `created`,
progress 0, no paths, `created_at` the current event-loop time. -/
def createSession (now : ℚ) : Session :=
  { status := .created, progress := 0, original_video_path := none,
    dubbed_video_path := none, created_at := now, error := none }

/-- One dict-item assignment performed by `process_dubbing` on its session. -/
inductive SessionWrite where
  | setStatus (st : Status)
  | setProgress (p : ℕ)
  | setError (msg : String)
  | setVideoPath (path : String)
deriving DecidableEq, Repr

def applyWrite (s : Session) : SessionWrite → Session
  | .setStatus st => { s with status := st }
  | .setProgress p => { s with progress := p }
  | .setError m => { s with error := some m }
  | .setVideoPath p => { s with dubbed_video_path := some p }

/-- Outcomes of the four external stage calls made by `process_dubbing`:
`transcription` models `process_video_transcription` (an exception, or a
result whose `success` flag is the Bool); the other three model
`translate_transcription`, `create_dubbed_audio` and
`combine_video_with_dubbed_audio` (an exception message, or the returned
value). -/
structure StageOutcomes where
  transcription : Except String Bool
  translation : Except String String
  tts : Except String String
  mux : Except String String
deriving Repr

/-- The writes of the `except` handler of main.py lines 317-321 (status first,
then the error message), also used by the explicit transcription-failure
branch of lines 247-248. -/
def failWrites (msg : String) : List SessionWrite :=
  [.setStatus .failed, .setError msg]

/-- The session writes of `process_dubbing` (main.py lines 234-321) in program
order, as a function of the stage outcomes: any stage exception jumps to the
`except` handler, which appends `failWrites` and ends the run. -/
def dubWrites (o : StageOutcomes) : List SessionWrite :=
  [.setStatus .transcribing, .setProgress 10] ++
  match o.transcription with
  | .error e => failWrites e
  | .ok false => failWrites "Transcription failed"
  | .ok true =>
    [.setProgress 30, .setStatus .translating] ++
    match o.translation with
    | .error e => failWrites e
    | .ok _ =>
      [.setProgress 50, .setStatus .generating_voice] ++
      match o.tts with
      | .error e => failWrites e
      | .ok _ =>
        [.setProgress 80, .setStatus .combining_video] ++
        match o.mux with
        | .error e => failWrites e
        | .ok path => [.setVideoPath path, .setProgress 100, .setStatus .completed]

/-- The states a poller can observe over one run: the freshly created session
followed by the state after each successive write. -/
def sessionTrace (now : ℚ) (o : StageOutcomes) : List Session :=
  List.scanl applyWrite (createSession now) (dubWrites o)

/-- The progress values written during a run, in order. -/
def progressWrites (o : StageOutcomes) : List ℕ :=
  (dubWrites o).filterMap fun w =>
    match w with
    | .setProgress p => some p
    | _ => none

/-- The statuses written during a run, in order. -/
def statusWrites (o : StageOutcomes) : List Status :=
  (dubWrites o).filterMap fun w =>
    match w with
    | .setStatus st => some st
    | _ => none

/-- The session state at the end of the run. -/
def finalSession (now : ℚ) (o : StageOutcomes) : Session :=
  List.foldl applyWrite (createSession now) (dubWrites o)

/-- A run reaches the completion writes exactly when the transcription result
has `success = True` and no later stage raises. -/
def runSucceeds (o : StageOutcomes) : Bool :=
  (match o.transcription with | .ok true => true | _ => false) &&
  o.translation.isOk && o.tts.isOk && o.mux.isOk

/-- An `HTTPException(status_code, detail)` as raised by the backend. -/
structure HTTPError where
  status_code : ℕ
  detail : String
deriving DecidableEq, Repr

/-- The response model of the `/dub/status` endpoint (main.py lines 62-69). -/
structure DubResponse where
  success : Bool
  status : Status
  progress : ℕ
  video_url : Option String
  download_url : Option String
  error : Option String
deriving DecidableEq, Repr

/-- Response construction of `get_dubbing_status` (main.py lines 184-197) for
an existing session: URLs only when completed, the recorded error (or the
default text) only when failed. -/
def statusResponse (session_id : String) (s : Session) : DubResponse :=
  let base : DubResponse :=
    { success := true, status := s.status, progress := s.progress,
      video_url := none, download_url := none, error := none }
  if s.status = .completed then
    { base with video_url := some ("/video/" ++ session_id),
                download_url := some ("/download/" ++ session_id) }
  else if s.status = .failed then
    { base with error := some (s.error.getD "Unknown error occurred") }
  else base

/-! ## Session registry — video_processing.py, `DubbingPipeline` -/

/-- The `sessions` dict of `DubbingPipeline`, keyed by session id. -/
def Registry : Type := String → Option Session

/-- `get_session` (video_processing.py lines 175-177):
`self.sessions.get(session_id)`.  It returns the stored dict itself — an
alias, not a copy. -/
def getSession (r : Registry) (session_id : String) : Option Session := r session_id

/-- `self.sessions[session_id] = value`. -/
def storeSession (r : Registry) (session_id : String) (s : Session) : Registry :=
  fun x => if x = session_id then some s else r x

/-- `session = pipeline.get_session(session_id)` followed by an in-place dict
mutation `session[...] = ...` through the returned reference, as
`process_dubbing` does (main.py lines 236-321): because `get_session` returns
the stored dict itself, the mutation lands in the registry's stored record;
a missing id leaves the registry unchanged. -/
def mutateViaGet (r : Registry) (session_id : String) (f : Session → Session) : Registry :=
  match getSession r session_id with
  | none => r
  | some s => storeSession r session_id (f s)

/-- `get_dubbing_status` (main.py lines 177-197): 404 for an unknown session,
otherwise the status response for the current session state. -/
def get_dubbing_status (r : Registry) (session_id : String) : Except HTTPError DubResponse :=
  match getSession r session_id with
  | none => .error ⟨404, "Session not found"⟩
  | some s => .ok (statusResponse session_id s)

/-! ## Media muxer — video_processing.py, `combine_video_with_dubbed_audio` -/

/-- Outcome of the ffmpeg subprocess run (returncode and decoded stderr). -/
structure ToolResult where
  returncode : ℤ
  stderr : String
deriving DecidableEq, Repr

/-- The external state the muxer's control flow branches on: the tool outcome
and whether the output file exists afterwards.  (A missing input file is not
checked by the code; it only surfaces as a non-zero tool exit.) -/
structure MuxEnv where
  tool : ToolResult
  output_exists : Bool
deriving DecidableEq, Repr

/-- The body of `combine_video_with_dubbed_audio` (video_processing.py lines
79-96): non-zero exit raises HTTP 500 `FFmpeg failed: <stderr or default>`;
a missing output file raises HTTP 500 `output file not created`; otherwise
the output path is returned. -/
def combineInner (env : MuxEnv) (output_path : String) : Except HTTPError String :=
  if env.tool.returncode ≠ 0 then
    .error ⟨500, "FFmpeg failed: " ++
      (if env.tool.stderr = "" then "Unknown FFmpeg error" else env.tool.stderr)⟩
  else if env.output_exists = false then
    .error ⟨500, "Video processing failed - output file not created"⟩
  else .ok output_path

/-- `combine_video_with_dubbed_audio` including its `except Exception`
wrapper (video_processing.py lines 98-100), which catches every inner
exception — the `HTTPException`s above included — and re-raises HTTP 500
`Video processing failed: <str(e)>`, where `str` of an `HTTPException` is
`"<status_code>: <detail>"`. -/
def combine_video_with_dubbed_audio (env : MuxEnv) (output_path : String) :
    Except HTTPError String :=
  match combineInner env output_path with
  | .ok p => .ok p
  | .error e =>
    .error ⟨500, "Video processing failed: " ++ toString e.status_code ++ ": " ++ e.detail⟩

/-! ## Claims about the orchestrator, registry and muxer -/

/-- C4: over any single run the observable progress sequence is monotonically
non-decreasing, and on the fully successful path the progress checkpoints
written are exactly 10, 30, 50, 80, 100, paired in program order with the
statuses transcribing, translating, generating_voice, combining_video,
completed. -/
theorem progress_monotone_and_checkpoints (now : ℚ) (o : StageOutcomes) :
    List.Chain' (· ≤ ·) ((sessionTrace now o).map Session.progress) ∧
    (∀ t a v, o = ⟨.ok true, .ok t, .ok a, .ok v⟩ →
      progressWrites o = [10, 30, 50, 80, 100] ∧
      statusWrites o = [.transcribing, .translating, .generating_voice,
        .combining_video, .completed] ∧
      dubWrites o = [.setStatus .transcribing, .setProgress 10, .setProgress 30,
        .setStatus .translating, .setProgress 50, .setStatus .generating_voice,
        .setProgress 80, .setStatus .combining_video, .setVideoPath v,
        .setProgress 100, .setStatus .completed]) := by
  constructor
  · obtain ⟨tr, tl, ts, mx⟩ := o
    rcases tr with e | b
    · norm_num [sessionTrace, dubWrites, failWrites, applyWrite, createSession,
        List.chain'_cons]
    · cases b
      · norm_num [sessionTrace, dubWrites, failWrites, applyWrite, createSession,
          List.chain'_cons]
      · rcases tl with e | t
        · norm_num [sessionTrace, dubWrites, failWrites, applyWrite, createSession,
            List.chain'_cons]
        · rcases ts with e | a
          · norm_num [sessionTrace, dubWrites, failWrites, applyWrite, createSession,
              List.chain'_cons]
          · rcases mx with e | v
            · norm_num [sessionTrace, dubWrites, failWrites, applyWrite, createSession,
                List.chain'_cons]
            · norm_num [sessionTrace, dubWrites, failWrites, applyWrite, createSession,
                List.chain'_cons]
  · intro t a v h
    subst h
    exact ⟨rfl, rfl, rfl⟩

/-- Witness for C4 at a concrete fully successful run. -/
theorem progress_monotone_and_checkpoints_witness :
    progressWrites ⟨.ok true, .ok "txt", .ok "a.mp3", .ok "v.mp4"⟩ = [10, 30, 50, 80, 100] :=
  ((progress_monotone_and_checkpoints 0 ⟨.ok true, .ok "txt", .ok "a.mp3", .ok "v.mp4"⟩).2
    "txt" "a.mp3" "v.mp4" rfl).1

/-- C6: whenever a stage fails, the run ends with status `failed`, the error
message recorded and the progress frozen at the last written checkpoint; the
final status write is `failed` (the run performs no write after it, so every
later poll observes the same state), and the status response for that state
carries an error and no video or download URL — never a partially-completed
result. -/
theorem failure_terminalizes_session (now : ℚ) (sid : String) (o : StageOutcomes)
    (h : runSucceeds o = false) :
    (finalSession now o).status = .failed ∧
    (finalSession now o).error.isSome = true ∧
    (finalSession now o).dubbed_video_path = none ∧
    (finalSession now o).progress = ((progressWrites o).getLast?).getD 0 ∧
    (statusWrites o).getLast? = some .failed ∧
    (statusResponse sid (finalSession now o)).status = .failed ∧
    (statusResponse sid (finalSession now o)).error.isSome = true ∧
    (statusResponse sid (finalSession now o)).video_url = none ∧
    (statusResponse sid (finalSession now o)).download_url = none := by
  obtain ⟨tr, tl, ts, mx⟩ := o
  rcases tr with e | b
  · simp [finalSession, dubWrites, failWrites, applyWrite, createSession,
      progressWrites, statusWrites, statusResponse]
  · cases b
    · simp [finalSession, dubWrites, failWrites, applyWrite, createSession,
        progressWrites, statusWrites, statusResponse]
    · rcases tl with e | t
      · simp [finalSession, dubWrites, failWrites, applyWrite, createSession,
          progressWrites, statusWrites, statusResponse]
      · rcases ts with e | a
        · simp [finalSession, dubWrites, failWrites, applyWrite, createSession,
            progressWrites, statusWrites, statusResponse]
        · rcases mx with e | v
          · simp [finalSession, dubWrites, failWrites, applyWrite, createSession,
              progressWrites, statusWrites, statusResponse]
          · simp [runSucceeds, Except.isOk, Except.toBool] at h

/-- Witness for C6 at a concrete run whose synthesis stage raises. -/
theorem failure_terminalizes_session_witness :
    runSucceeds ⟨.ok true, .ok "txt", .error "TTS boom", .ok "v.mp4"⟩ = false ∧
    (finalSession 0 ⟨.ok true, .ok "txt", .error "TTS boom", .ok "v.mp4"⟩).status =
      .failed ∧
    (statusResponse "sid"
        (finalSession 0 ⟨.ok true, .ok "txt", .error "TTS boom", .ok "v.mp4"⟩)).video_url =
      none :=
  ⟨rfl,
   (failure_terminalizes_session 0 "sid" ⟨.ok true, .ok "txt", .error "TTS boom", .ok "v.mp4"⟩
      rfl).1,
   (failure_terminalizes_session 0 "sid" ⟨.ok true, .ok "txt", .error "TTS boom", .ok "v.mp4"⟩
      rfl).2.2.2.2.2.2.2.1⟩

/-- C8 counterexample: a muxing run whose tool invocation fails (as it does
when the dubbed-audio input path names a missing file) raises HTTP 500 — not
NotFound/404 — and at the moment the muxer runs the session holds status
`combining_video` (progress 80), not `generating_voice`: checkpoint 80 /
combining_video is written before the muxer is called. -/
theorem mux_failure_not_notfound :
    combine_video_with_dubbed_audio ⟨⟨1, "No such file"⟩, false⟩ "out.mp4" =
      .error ⟨500, "Video processing failed: 500: FFmpeg failed: No such file"⟩ ∧
    (500 : ℕ) ≠ 404 ∧
    ((sessionTrace 0 ⟨.ok true, .ok "txt", .ok "a.mp3", .error "mux boom"⟩).map
        (fun s => (s.status, s.progress))).get? 8 = some (.combining_video, 80) ∧
    Status.combining_video ≠ Status.generating_voice := by
  refine ⟨by rfl, by norm_num, by rfl, by simp⟩

/-- C8 amended: every failure of the muxer is reported as an HTTP 500
`ProcessingError`-style exception (there is no NotFound outcome: a missing
input surfaces as a non-zero tool exit), and the failing muxer itself leaves
the session's prior `combining_video` status and progress 80 untouched — the
session record changes only when the orchestrator afterwards appends the
`failed` writes, with progress still 80. -/
theorem mux_failure_classification_and_session (env : MuxEnv) (p : String)
    (now : ℚ) (t a e : String) :
    (∀ err, combine_video_with_dubbed_audio env p = .error err →
        err.status_code = 500) ∧
    sessionTrace now ⟨.ok true, .ok t, .ok a, .error e⟩ =
      [createSession now,
       { createSession now with status := .transcribing },
       { createSession now with status := .transcribing, progress := 10 },
       { createSession now with status := .transcribing, progress := 30 },
       { createSession now with status := .translating, progress := 30 },
       { createSession now with status := .translating, progress := 50 },
       { createSession now with status := .generating_voice, progress := 50 },
       { createSession now with status := .generating_voice, progress := 80 },
       { createSession now with status := .combining_video, progress := 80 },
       { createSession now with status := .failed, progress := 80 },
       { createSession now with status := .failed, progress := 80, error := some e }] ∧
    finalSession now ⟨.ok true, .ok t, .ok a, .error e⟩ =
      { createSession now with status := .failed, progress := 80, error := some e } := by
  refine ⟨?_, by rfl, by rfl⟩
  intro err herr
  unfold combine_video_with_dubbed_audio at herr
  cases hc : combineInner env p with
  | ok q =>
    rw [hc] at herr
    exact absurd herr (by simp)
  | error e' =>
    rw [hc] at herr
    injection herr with h1
    rw [← h1]

/-- Witness for the amended C8 at a concrete failing tool run. -/
theorem mux_failure_classification_witness :
    (⟨500, "Video processing failed: 500: FFmpeg failed: No such file"⟩ :
        HTTPError).status_code = 500 ∧
    finalSession 0 ⟨.ok true, .ok "txt", .ok "a.mp3", .error "mux boom"⟩ =
      { createSession 0 with
          status := .failed, progress := 80, error := some "mux boom" } :=
  ⟨(mux_failure_classification_and_session ⟨⟨1, "No such file"⟩, false⟩ "out.mp4"
      0 "txt" "a.mp3" "mux boom").1
      ⟨500, "Video processing failed: 500: FFmpeg failed: No such file"⟩ (by rfl),
   (mux_failure_classification_and_session ⟨⟨1, "No such file"⟩, false⟩ "out.mp4"
      0 "txt" "a.mp3" "mux boom").2.2⟩

/-- C9 counterexample: `get_session` returns the stored record itself, not a
snapshot — a mutation made through the returned record is visible to a later
`get_session` call, so the state observed by later gets changes. -/
theorem get_session_returns_alias :
    getSession (mutateViaGet (storeSession (fun _ => none) "s" (createSession 0)) "s"
        (fun s => { s with status := .transcribing })) "s" ≠
      getSession (storeSession (fun _ => none) "s" (createSession 0)) "s" := by
  simp [getSession, storeSession, mutateViaGet, createSession]

/-- C9 amended: for an existing session id, `get_session` returns the live
session record (an alias): a mutation made through the returned record is
exactly a mutation of the stored record, observed by every later get; for a
non-existent id it returns nothing and the status endpoint reports 404
`Session not found`. -/
theorem get_session_alias_semantics (r : Registry) (sid : String) (f : Session → Session) :
    (∀ s, getSession r sid = some s →
        getSession (mutateViaGet r sid f) sid = some (f s)) ∧
    (getSession r sid = none → getSession (mutateViaGet r sid f) sid = none) ∧
    (getSession r sid = none →
        get_dubbing_status r sid = .error ⟨404, "Session not found"⟩) := by
  refine ⟨?_, ?_, ?_⟩
  · intro s hs
    have hs' : r sid = some s := hs
    simp [mutateViaGet, getSession, hs', storeSession]
  · intro hs
    have hs' : r sid = none := hs
    simp [mutateViaGet, getSession, hs']
  · intro hs
    have hs' : r sid = none := hs
    simp [get_dubbing_status, getSession, hs']

/-- Witness for the amended C9: a progress write through the gotten record is
visible to the next get, and an unknown id yields the 404 error. -/
theorem get_session_alias_semantics_witness :
    getSession (mutateViaGet (storeSession (fun _ => none) "s" (createSession 0)) "s"
        (fun s => { s with progress := 10 })) "s" =
      some { createSession 0 with progress := 10 } ∧
    get_dubbing_status (fun _ => none) "missing" = .error ⟨404, "Session not found"⟩ :=
  ⟨(get_session_alias_semantics (storeSession (fun _ => none) "s" (createSession 0)) "s"
      (fun s => { s with progress := 10 })).1 (createSession 0)
      (by simp [getSession, storeSession]),
   (get_session_alias_semantics (fun _ => none) "missing" id).2.2 rfl⟩

end VideoDub
